import Mathlib

/-!
Verification development for the BlenderUtils repository: a shallow
embedding in Lean 4 of the five utility modules (BatchUtilities,
CompositorUtilities, DataUtilities, MaterialUtilities, SceneUtilities),
together with theorems settling the specification claims about them.

Host-owned state (the Blender scene graph, data blocks, node trees and
the file system) is made explicit as Lean structures; Python exceptions
become an `Except` error channel; host calls that only observe state
become pure functions of it.
-/

namespace BlenderUtils

/-- Python exceptions that the embedded code can raise.  `referenceError`
models `ReferenceError` (an invalidated bpy reference), `attributeError`
models attribute access on `None`, `indexError` and `keyError` model bad
subscripts, `fileNotFoundError` models a failed `os.rename`/file access,
and `otherError` stands for any other exception type. -/
inductive PyErr where
  | referenceError
  | attributeError
  | indexError
  | keyError
  | fileNotFoundError
  | otherError (msg : String)
deriving DecidableEq, Repr

/- ===================== BatchUtilities.py ===================== -/

/-- Record of a `subprocess.run` invocation: the argument vector handed to
the operating system. -/
structure SubprocessCall where
  argv : List String
deriving DecidableEq, Repr

/-- Embedding of `subprocess.run(args)`: the call is recorded with the
exact argument vector it receives. -/
def subprocessRun (argv : List String) : SubprocessCall :=
  ⟨argv⟩

/-- Embedding of `BatchUtilites.runBatchProcess` (src/BatchUtilities.py,
lines 7-27): prepends the hardcoded Blender binary path, `--background`,
`--python`, the python file and the `--` separator to the caller's
argument list and invokes the subprocess with the result. -/
def runBatchProcess (python_file : String) (args : List String) : SubprocessCall :=
  let blenderExe := "C:\\Program Files\\Blender Foundation\\Blender 3.3\\blender.exe"
  let args := [blenderExe, "--background", "--python", python_file, "--"] ++ args
  subprocessRun args

/- ===================== SceneUtilities.joinObjects (cleanup) ===================== -/

/-- Embedding of the `cleanup_empties` tail of `SceneUtilities.joinObjects`
(src/SceneUtilities.py, lines 190-196).  The outcome of
`bpy.data.objects.remove(secondary_parent)` is host-determined, so it is
passed in as an `Except PyErr Unit`; the embedding reproduces the
`try/except ReferenceError: pass` control flow around it.  With
`cleanup_empties = false` the removal is never attempted. -/
def joinObjectsCleanup (cleanup_empties : Bool)
    (removeSecondaryParent : Except PyErr Unit) : Except PyErr Unit :=
  if cleanup_empties then
    match removeSecondaryParent with
    | .ok _ => .ok ()
    | .error .referenceError => .ok ()
    | .error e => .error e
  else
    .ok ()

/- ===================== FilePath and the file system ===================== -/

/-- Modelled from the spec: the `FilePath` helper class imported from
`Utilities.FileObjects.FilePath` is not part of this repository's
sources; the spec describes it only as a file-system path/suffix helper.
It is modelled as the parsed triple of directory, file name and
extension, the fields the repository's code reads and writes
(`fileName`, `fileExt`, `getFullPath`, `getFullPath(path_only=True)`,
`exists`, `removeFile`). -/
structure FilePath where
  directory : String
  fileName : String
  fileExt : String
deriving DecidableEq, Repr

/-- Modelled from the spec: `FilePath.getFullPath()` with no argument
returns the full path `directory/fileName.fileExt`. -/
def FilePath.getFullPath (fp : FilePath) : String :=
  fp.directory ++ "/" ++ fp.fileName ++ "." ++ fp.fileExt

/-- Modelled from the spec: `FilePath.getFullPath(path_only=True)` returns
only the directory part of the path. -/
def FilePath.getPathOnly (fp : FilePath) : String :=
  fp.directory

/-- The file system as the list of paths of the files that exist.  All
file-system effects in the repository are existence checks, removals and
renames of whole paths. -/
abbrev FS : Type := List String

/-- Membership test for the file-system model: `path` names an existing
file (`FilePath.exists` / `os.path.exists`). -/
def fsExists (fs : FS) (path : String) : Bool :=
  List.any fs (fun p => p == path)

/-- Modelled from the spec: `FilePath.removeFile` deletes the file at the
path from the file system. -/
def removeFile (fs : FS) (path : String) : FS :=
  List.filter (fun p => p != path) fs

/-- Embedding of `os.rename(src, dst)`: if the source file exists it is
moved to the destination path, otherwise the file-system error
(`FileNotFoundError`) is raised. -/
def osRename (fs : FS) (src dst : String) : Except PyErr FS :=
  if fsExists fs src then
    .ok (dst :: List.filter (fun p => p != src) fs)
  else
    .error .fileNotFoundError

/- ===================== CompositorUtilities.removeBlenderFrameSuffix ===================== -/

/-- The path of the Blender render output carrying the automatic frame
suffix, as assembled on line 68 of src/CompositorUtilities.py:
`getFullPath(path_only=True) + "/" + fileName + "0000" + "." + fileExt`. -/
def tmpOutputPath (fp : FilePath) : String :=
  fp.getPathOnly ++ "/" ++ fp.fileName ++ "0000" ++ "." ++ fp.fileExt

/-- Embedding of `CompositorUtilities.removeBlenderFrameSuffix`
(src/CompositorUtilities.py, lines 54-69): if the destination path
already exists it is removed, then the file carrying the literal `0000`
suffix is renamed to the destination path.  The `frame` parameter is
accepted, exactly as in the source, and never read. -/
def removeBlenderFrameSuffix (fs : FS) (file_path : FilePath) (frame : Nat) :
    Except PyErr FS :=
  let _ := frame
  let fs1 := if fsExists fs file_path.getFullPath then
               removeFile fs file_path.getFullPath
             else fs
  let tmpOutput := tmpOutputPath file_path
  osRename fs1 tmpOutput file_path.getFullPath

/- ===================== CompositorUtilities.extractAlphaToGreyscale (destination) ===================== -/

/-- Embedding of the destination selection of
`CompositorUtilities.extractAlphaToGreyscale` (src/CompositorUtilities.py,
lines 98-108): a provided `dst_img` is used as the full destination path;
otherwise a provided `dst_suffix` keeps the source directory and
extension and joins the source name and the suffix with `_`
(`'_'.join([srcTex.fileName, dst_suffix])`); otherwise the source path is
reused.  The chosen `FilePath` is the one assigned to the output node
(lines 110-121) and returned on line 129.  Python path strings are
represented already parsed into `FilePath` (the `FilePath` constructor is
modelled from the spec, see `FilePath`). -/
def extractAlphaDest (srcTex : FilePath) (dst_img : Option FilePath)
    (dst_suffix : Option String) : FilePath :=
  match dst_img with
  | some dstTex => dstTex
  | none =>
    match dst_suffix with
    | some sfx =>
      { directory := srcTex.directory
        fileName := srcTex.fileName ++ "_" ++ sfx
        fileExt := srcTex.fileExt }
    | none => srcTex

/- ===================== SceneUtilities.createCamera and renderComposition ===================== -/

/-- The object types the repository's code inspects (`obj.type`). -/
inductive ObjType where
  | CAMERA
  | MESH
  | EMPTY
  | LIGHT
deriving DecidableEq, Repr

/-- A scene object as the code observes it: its name and its type. -/
structure SceneObject where
  name : String
  otype : ObjType
deriving DecidableEq, Repr

/-- The host-owned scene state that `createCamera` and
`renderComposition` read and mutate: the objects of the view layer's
active collection, the named collections of `bpy.data.collections`, the
collection names linked under the scene's root collection, the scene's
active camera (`bpy.context.scene.camera`, by object name) and the
camera data blocks of `bpy.data.cameras`.  Object locations and
rotations are host-side transform data not observed by any claim and are
omitted. -/
structure Scene where
  activeCollectionObjects : List SceneObject
  dataCollections : List (String × List SceneObject)
  sceneChildCollections : List String
  camera : Option String
  dataCameras : List String
deriving DecidableEq, Repr

/-- Which collection `createCamera` targets: the active collection of the
view layer, or a named collection of `bpy.data.collections`. -/
inductive CollRef where
  | active
  | named (name : String)
deriving DecidableEq, Repr

/-- Embedding of the collection-resolution head of
`SceneUtilities.createCamera` (src/SceneUtilities.py, lines 17-31): a
provided collection name is looked up in `bpy.data.collections` and
created and linked under the scene's root collection when absent;
without a name the active collection of the view layer is used. -/
def resolveCollection (scene : Scene) (collection : Option String) :
    Scene × CollRef :=
  match collection with
  | some c =>
    match scene.dataCollections.find? (fun x => x.1 == c) with
    | some _ => (scene, .named c)
    | none =>
      ({ scene with
          dataCollections := scene.dataCollections ++ [(c, [])]
          sceneChildCollections := scene.sceneChildCollections ++ [c] },
        .named c)
  | none => (scene, .active)

/-- The objects of the referenced collection (`camCollection.objects`). -/
def objectsOf (scene : Scene) (ref : CollRef) : List SceneObject :=
  match ref with
  | .active => scene.activeCollectionObjects
  | .named c =>
    ((scene.dataCollections.find? (fun x => x.1 == c)).map Prod.snd).getD []

/-- Linking a new object into the referenced collection
(`camCollection.objects.link(camera)`). -/
def linkObject (scene : Scene) (ref : CollRef) (obj : SceneObject) : Scene :=
  match ref with
  | .active =>
    { scene with
        activeCollectionObjects := scene.activeCollectionObjects ++ [obj] }
  | .named c =>
    { scene with
        dataCollections := scene.dataCollections.map
          (fun x => if x.1 == c then (x.1, x.2 ++ [obj]) else x) }

/-- The objects of the collection `createCamera` targets, after
resolution: the direct query the existing-camera check runs over. -/
def targetObjects (scene : Scene) (collection : Option String) :
    List SceneObject :=
  objectsOf (resolveCollection scene collection).1 (resolveCollection scene collection).2

/-- Embedding of `SceneUtilities.createCamera` (src/SceneUtilities.py,
lines 10-64): resolve the target collection; unless
`create_if_camera_exists` is set, return `None` as soon as an object of
type `CAMERA` is found among the collection's objects; otherwise create
a camera data block and object named `name`, link the object into the
collection, optionally make it the scene's active camera, and return
it. -/
def createCamera (scene : Scene) (name : String) (collection : Option String)
    (create_if_camera_exists set_as_active : Bool) : Scene × Option String :=
  let scene1 := (resolveCollection scene collection).1
  let ref := (resolveCollection scene collection).2
  let objects := objectsOf scene1 ref
  if !create_if_camera_exists && objects.any (fun o => o.otype == ObjType.CAMERA) then
    (scene1, none)
  else
    let scene2 := { scene1 with dataCameras := scene1.dataCameras ++ [name] }
    let scene3 := linkObject scene2 ref ⟨name, ObjType.CAMERA⟩
    let scene4 := if set_as_active then { scene3 with camera := some name } else scene3
    (scene4, some name)

/-- Embedding of the camera guard at the head of
`CompositorUtilities.renderComposition` (src/CompositorUtilities.py,
lines 37-41): when the scene has no active camera, `createCamera` is
called with name `"RenderCam"` and its remaining parameters left at
their defaults (no collection, `create_if_camera_exists=False`,
`set_as_active=True`). -/
def renderCompositionPre (scene : Scene) : Scene :=
  if scene.camera.isNone then
    (createCamera scene "RenderCam" none false true).1
  else
    scene

/-- The scene's active camera at the moment `bpy.ops.render.render` is
invoked on line 47 of src/CompositorUtilities.py: the camera after the
guard above has run. -/
def renderCompositionCameraAtRender (scene : Scene) : Option String :=
  (renderCompositionPre scene).camera

/- ===================== MaterialUtilities.getTextureFromSlot ===================== -/

/-- A shader node of a material node tree as the code traverses it: a
name and a list of input sockets, each socket being its name paired with
the list of upstream nodes its links come from (`link.from_node`). -/
inductive ShaderNode where
  | mk (name : String) (inputs : List (String × List ShaderNode))

/-- The node's name. -/
def ShaderNode.name : ShaderNode → String
  | .mk n _ => n

/-- The node's input sockets. -/
def ShaderNode.inputs : ShaderNode → List (String × List ShaderNode)
  | .mk _ i => i

/-- Embedding of integer socket subscription `node.inputs[i]`, yielding
the socket's upstream link sources; a bad index raises `IndexError`. -/
def inputByIndex (n : ShaderNode) (i : Nat) : Except PyErr (List ShaderNode) :=
  match n.inputs[i]? with
  | some s => .ok s.2
  | none => .error .indexError

/-- Embedding of keyed socket subscription `node.inputs["Color"]`; a
missing socket name raises `KeyError`. -/
def inputByName (n : ShaderNode) (key : String) : Except PyErr (List ShaderNode) :=
  match n.inputs.find? (fun s => s.1 == key) with
  | some s => .ok s.2
  | none => .error .keyError

/-- A material as the code observes it: the nodes of its node tree. -/
structure Material where
  nodes : List ShaderNode

/-- Embedding of `nodes.get(name, None)`: lookup of a node by name with a
`None` default. -/
def nodesGet (nodes : List ShaderNode) (name : String) : Option ShaderNode :=
  nodes.find? (fun n => n.name == name)

/-- Modelled from the spec: the `BlenderMaterialTextureSlots` enum is
imported from `Utilities.Enums.DCCs`, which is not part of this
repository's sources.  Each member's `value` is the integer index of the
corresponding Principled BSDF input socket; the indices below are those
of the Blender 3.3 Principled BSDF and only the `Normal` member is
treated specially by the code. -/
inductive BlenderMaterialTextureSlots where
  | BaseColor
  | Metallic
  | Roughness
  | Normal
deriving DecidableEq, Repr

/-- Modelled from the spec: the enum member's socket index (`slot.value`). -/
def BlenderMaterialTextureSlots.value : BlenderMaterialTextureSlots → Nat
  | .BaseColor => 0
  | .Metallic => 6
  | .Roughness => 9
  | .Normal => 22

/-- Embedding of `MaterialUtilities.getTextureFromSlot`
(src/MaterialUtilities.py, lines 22-44): fetch the `Principled BSDF`
node with a `None` default (accessing `.inputs` on `None` raises
`AttributeError`); subscript its inputs at `slot.value`; with no links
return `None`; for the `Normal` slot follow
`links[0].from_node.inputs["Color"].links[0].from_node`, otherwise
return `links[0].from_node`.  Every host exception escapes unchanged:
there is no handler in the function. -/
def getTextureFromSlot (material : Material)
    (slot : BlenderMaterialTextureSlots) : Except PyErr (Option ShaderNode) :=
  match nodesGet material.nodes "Principled BSDF" with
  | none => .error .attributeError
  | some shaderGraph =>
    match inputByIndex shaderGraph slot.value with
    | .error e => .error e
    | .ok links =>
      match links with
      | [] => .ok none
      | fromNode :: _ =>
        if slot == .Normal then
          match inputByName fromNode "Color" with
          | .error e => .error e
          | .ok clinks =>
            match clinks with
            | [] => .error .indexError
            | texNode :: _ => .ok (some texNode)
        else
          .ok (some fromNode)

/- ===================== DataUtilities.purgeMeshObjectsFromCollection ===================== -/

/-- An object as `purgeMeshObjectsFromCollection` observes it: name,
type, and the name of its mesh data block when it has one
(`obj.data`). -/
structure BlendObject where
  name : String
  otype : ObjType
  dataMesh : Option String
deriving DecidableEq, Repr

/-- The data-block state `purgeMeshObjectsFromCollection` reads and
mutates: the named collections with their objects, all objects of
`bpy.data.objects`, the mesh data blocks, and the materials and images
each paired with its host-maintained user count (`.users`).  A mesh's
user count is derived from the objects referencing it; material and
image user counts come from host-side links (meshes, shaders) the code
only reads, so they are carried as state. -/
structure BlendData where
  collections : List (String × List BlendObject)
  objects : List BlendObject
  meshes : List String
  materials : List (String × Nat)
  images : List (String × Nat)
deriving DecidableEq, Repr

/-- The user count of a mesh data block: how many objects reference it
as their data. -/
def meshUsers (objs : List BlendObject) (m : String) : Nat :=
  (objs.filter (fun o => o.dataMesh == some m)).length

/-- Embedding of `DataUtilities.purgeMeshObjectsFromCollection`
(src/DataUtilities.py, lines 10-46): look the collection up by name
(`bpy.data.collections[collection_name]` raises `KeyError`, modelled as
`none`, when absent); remove every object of the collection,
remembering the mesh data of the `MESH` ones; then, each step under its
flag, remove the remembered meshes that are left with zero users, all
zero-user materials, and all zero-user images. -/
def purgeMeshObjectsFromCollection (st : BlendData) (collection_name : String)
    (remove_meshes remove_materials remove_images : Bool) : Option BlendData :=
  match st.collections.find? (fun x => x.1 == collection_name) with
  | none => none
  | some entry =>
    let collObjs := entry.2
    let collMeshes := (collObjs.filter (fun o => o.otype == ObjType.MESH)).filterMap
      (fun o => o.dataMesh)
    let objs1 := st.objects.filter
      (fun o => !(collObjs.any (fun x => x.name == o.name)))
    let colls1 := st.collections.map
      (fun c => (c.1, c.2.filter (fun o => !(collObjs.any (fun x => x.name == o.name)))))
    let meshes1 := if remove_meshes then
        st.meshes.filter (fun m => !(collMeshes.contains m && meshUsers objs1 m == 0))
      else st.meshes
    let materials1 := if remove_materials then
        st.materials.filter (fun mat => !(mat.2 == 0))
      else st.materials
    let images1 := if remove_images then
        st.images.filter (fun i => !(i.2 == 0))
      else st.images
    some { collections := colls1, objects := objs1, meshes := meshes1,
           materials := materials1, images := images1 }

/- ===================== Concrete example states used by witnesses and counterexamples ===================== -/

/-- Scene used to refute C6: the scene's active camera is unset, but the
active collection already holds a (stale, non-active) camera object. -/
def c6CexScene : Scene :=
  { activeCollectionObjects := [⟨"StaleCam", ObjType.CAMERA⟩]
    dataCollections := []
    sceneChildCollections := []
    camera := none
    dataCameras := [] }

/-- The effect of the object-removal loop of
`purgeMeshObjectsFromCollection` alone (all three flags off): the
collection's objects disappear from every collection and from
`bpy.data.objects`; meshes, materials and images are untouched.  Used to
name the all-flags-off result in proofs. -/
def purgeObjectsOnly (st : BlendData) (collObjs : List BlendObject) : BlendData :=
  { collections := st.collections.map
      (fun c => (c.1, c.2.filter (fun o => !(collObjs.any (fun x => x.name == o.name)))))
    objects := st.objects.filter
      (fun o => !(collObjs.any (fun x => x.name == o.name)))
    meshes := st.meshes
    materials := st.materials
    images := st.images }

/-- Material with no `Principled BSDF` node. -/
def c3MatNoPrincipled : Material := ⟨[]⟩

/-- A `Principled BSDF` node with no input sockets. -/
def c3SgNoInputs : ShaderNode := .mk "Principled BSDF" []

/-- Material whose `Principled BSDF` node has no input sockets. -/
def c3MatNoInputs : Material := ⟨[c3SgNoInputs]⟩

/-- An upstream normal-map node lacking a `Color` input. -/
def c3NormalMapNode : ShaderNode := .mk "Normal Map" []

/-- A `Principled BSDF` node whose `Normal` socket (index 22) links to an
upstream node with no `Color` input. -/
def c3SgNormal : ShaderNode :=
  .mk "Principled BSDF"
    (List.replicate 22 ("Other", []) ++ [("Normal", [c3NormalMapNode])])

/-- Material exercising the `Normal`-slot traversal. -/
def c3MatNormal : Material := ⟨[c3SgNormal]⟩

/-- Concrete data-block state for the C8 witness: collection `Coll` holds
a mesh object on `mesh1` and a camera object; `mesh2` stays in use by an
object outside the collection; one material and one image are
orphans. -/
def c8St : BlendData :=
  { collections := [("Coll", [⟨"obj1", ObjType.MESH, some "mesh1"⟩,
      ⟨"cam1", ObjType.CAMERA, none⟩])]
    objects := [⟨"obj1", ObjType.MESH, some "mesh1"⟩,
      ⟨"cam1", ObjType.CAMERA, none⟩, ⟨"keep", ObjType.MESH, some "mesh2"⟩]
    meshes := ["mesh1", "mesh2"]
    materials := [("matUsed", 1), ("matOrphan", 0)]
    images := [("imgOrphan", 0), ("imgUsed", 2)] }

/-- Result of purging `Coll` from `c8St` with every flag on. -/
def c8Res : BlendData :=
  { collections := [("Coll", [])]
    objects := [⟨"keep", ObjType.MESH, some "mesh2"⟩]
    meshes := ["mesh2"]
    materials := [("matUsed", 1)]
    images := [("imgUsed", 2)] }

/-- Result of purging `Coll` from `c8St` with every flag off: only the
collection's objects are gone. -/
def c8Res0 : BlendData :=
  { collections := [("Coll", [])]
    objects := [⟨"keep", ObjType.MESH, some "mesh2"⟩]
    meshes := ["mesh1", "mesh2"]
    materials := [("matUsed", 1), ("matOrphan", 0)]
    images := [("imgOrphan", 0), ("imgUsed", 2)] }

/- ===================== Helper lemmas for the file-system model ===================== -/

/-- A path exists in the file-system model exactly when it is a member of
the path list. -/
theorem fsExists_iff_mem (fs : FS) (path : String) :
    fsExists fs path = true ↔ path ∈ fs := by
  simp [fsExists, List.any_eq_true, beq_iff_eq]

/-- The `0000`-suffixed temporary path differs from the destination path:
it is four characters longer. -/
theorem tmpOutputPath_ne_getFullPath (fp : FilePath) :
    tmpOutputPath fp ≠ fp.getFullPath := by
  intro h
  have hlen := congrArg String.length h
  have h4 : ("0000" : String).length = 4 := rfl
  simp only [tmpOutputPath, FilePath.getFullPath, FilePath.getPathOnly,
    String.length_append] at hlen
  omega

/-- Filtering away a path that is not in the list leaves the list
unchanged. -/
theorem filter_ne_of_not_mem (fs : FS) (path : String) (h : path ∉ fs) :
    List.filter (fun p => p != path) fs = fs := by
  apply List.filter_eq_self.mpr
  intro a ha
  simp only [bne_iff_ne, ne_eq, decide_eq_true_eq]
  intro hc
  exact h (hc ▸ ha)

/-- Regardless of whether the destination file existed and was removed
first, the state `removeBlenderFrameSuffix` passes to `os.rename` is the
source state minus the destination path. -/
theorem removeBlenderFrameSuffix_eq (fs : FS) (fp : FilePath) (frame : Nat) :
    removeBlenderFrameSuffix fs fp frame =
      osRename (List.filter (fun p => p != fp.getFullPath) fs)
        (tmpOutputPath fp) fp.getFullPath := by
  unfold removeBlenderFrameSuffix
  by_cases h : fsExists fs fp.getFullPath = true
  · simp [h, removeFile]
  · have hnm : fp.getFullPath ∉ fs := by
      intro hm
      exact h ((fsExists_iff_mem fs fp.getFullPath).mpr hm)
    simp [h, filter_ne_of_not_mem fs fp.getFullPath hnm]

/-- When the `0000`-suffixed source file does not exist,
`removeBlenderFrameSuffix` fails with the file-system error raised by
`os.rename`. -/
theorem removeBlenderFrameSuffix_fileNotFound (fs : FS) (fp : FilePath)
    (frame : Nat) (habs : tmpOutputPath fp ∉ fs) :
    removeBlenderFrameSuffix fs fp frame = .error .fileNotFoundError := by
  rw [removeBlenderFrameSuffix_eq]
  have hnm : tmpOutputPath fp ∉ List.filter (fun p => p != fp.getFullPath) fs :=
    fun hmem => habs (List.mem_filter.mp hmem).1
  have hex : fsExists (List.filter (fun p => p != fp.getFullPath) fs)
      (tmpOutputPath fp) = false := by
    cases hx : fsExists (List.filter (fun p => p != fp.getFullPath) fs)
        (tmpOutputPath fp) with
    | false => rfl
    | true => exact absurd ((fsExists_iff_mem _ _).mp hx) hnm
  simp [osRename, hex]

/- ===================== Claims C1 and C2 ===================== -/

/-- C1: for every `python_file` and argument list `args`, `runBatchProcess`
invokes the subprocess with exactly the hardcoded Blender binary path,
then `--background`, `--python`, `python_file`, the `--` separator, and
then the elements of `args` unchanged and in order. -/
theorem c1_runBatchProcess_argv (python_file : String) (args : List String) :
    (runBatchProcess python_file args).argv =
      ["C:\\Program Files\\Blender Foundation\\Blender 3.3\\blender.exe",
       "--background", "--python", python_file, "--"] ++ args := by
  rfl

/-- C2: with `cleanup_empties = true`, a `ReferenceError` raised by the
removal of `secondary_parent` is swallowed and `joinObjects` returns
normally, while an exception of any other type propagates unchanged to
the caller. -/
theorem c2_joinObjects_swallows_only_referenceError :
    joinObjectsCleanup true (.error .referenceError) = .ok () ∧
    (∀ e : PyErr, e ≠ .referenceError →
      joinObjectsCleanup true (.error e) = .error e) := by
  refine ⟨rfl, ?_⟩
  intro e he
  cases e with
  | referenceError => exact absurd rfl he
  | attributeError => rfl
  | indexError => rfl
  | keyError => rfl
  | fileNotFoundError => rfl
  | otherError msg => rfl

/-- C2 witness: at the concrete non-reference error `otherError "TypeError"`,
the exception propagates, and the concrete `referenceError` is swallowed. -/
theorem c2_witness :
    joinObjectsCleanup true (.error .referenceError) = .ok () ∧
    joinObjectsCleanup true (.error (.otherError "TypeError")) =
      .error (.otherError "TypeError") :=
  ⟨c2_joinObjects_swallows_only_referenceError.1,
   c2_joinObjects_swallows_only_referenceError.2 (.otherError "TypeError") (by decide)⟩

/- ===================== Claims C4, C9 and C10 ===================== -/

/-- C4: when the `0000`-suffixed render file `directory/fileName0000.fileExt`
exists, `removeBlenderFrameSuffix` succeeds, any file already at the
destination path `directory/fileName.fileExt` having been removed before
the rename: afterwards the rendered output exists under the destination
name exactly once and the `0000`-suffixed path no longer exists. -/
theorem c4_removeBlenderFrameSuffix_strips_suffix (fs : FS) (fp : FilePath)
    (frame : Nat) (h : tmpOutputPath fp ∈ fs) :
    ∃ fs2, removeBlenderFrameSuffix fs fp frame = .ok fs2 ∧
      fp.getFullPath ∈ fs2 ∧
      tmpOutputPath fp ∉ fs2 ∧
      List.count fp.getFullPath fs2 = 1 := by
  have hne := tmpOutputPath_ne_getFullPath fp
  have hmem1 : tmpOutputPath fp ∈ List.filter (fun p => p != fp.getFullPath) fs := by
    simp only [List.mem_filter, bne_iff_ne, ne_eq, decide_eq_true_eq]
    exact ⟨h, hne⟩
  have hex : fsExists (List.filter (fun p => p != fp.getFullPath) fs)
      (tmpOutputPath fp) = true :=
    (fsExists_iff_mem _ _).mpr hmem1
  refine ⟨fp.getFullPath ::
      List.filter (fun p => p != tmpOutputPath fp)
        (List.filter (fun p => p != fp.getFullPath) fs),
    ?_, List.mem_cons_self _ _, ?_, ?_⟩
  · rw [removeBlenderFrameSuffix_eq]
    simp [osRename, hex]
  · intro hmem
    rcases List.mem_cons.mp hmem with hc | hc
    · exact hne hc
    · have := (List.mem_filter.mp hc).2
      simp at this
  · rw [List.count_cons_self]
    have hz : fp.getFullPath ∉
        List.filter (fun p => p != tmpOutputPath fp)
          (List.filter (fun p => p != fp.getFullPath) fs) := by
      intro hmem
      have h1 := (List.mem_filter.mp hmem).1
      have h2 := (List.mem_filter.mp h1).2
      simp at h2
    rw [List.count_eq_zero.mpr hz]

/-- C4 witness: on the concrete file system
`["d/a0000.png", "d/a.png", "d/other.txt"]` the `0000` suffix of
`d/a0000.png` is stripped onto `d/a.png`. -/
theorem c4_witness :
    ∃ fs2, removeBlenderFrameSuffix ["d/a0000.png", "d/a.png", "d/other.txt"]
        ⟨"d", "a", "png"⟩ 0 = .ok fs2 ∧
      FilePath.getFullPath ⟨"d", "a", "png"⟩ ∈ fs2 ∧
      tmpOutputPath ⟨"d", "a", "png"⟩ ∉ fs2 ∧
      List.count (FilePath.getFullPath ⟨"d", "a", "png"⟩) fs2 = 1 :=
  c4_removeBlenderFrameSuffix_strips_suffix _ _ 0 (by decide)

/-- C9: `removeBlenderFrameSuffix` ignores its `frame` parameter — the
result is the same for every frame value; whenever the literal
`0000`-suffixed file is absent (as it is for a render produced with a
non-zero frame, whose suffix is not `0000`) the function fails with the
file-system error instead of stripping that render's suffix; and on
success no existing file other than the `0000`-suffixed source and the
old destination is removed. -/
theorem c9_removeBlenderFrameSuffix_ignores_frame (fs : FS) (fp : FilePath)
    (f1 f2 : Nat) :
    removeBlenderFrameSuffix fs fp f1 = removeBlenderFrameSuffix fs fp f2 ∧
    (tmpOutputPath fp ∉ fs →
      removeBlenderFrameSuffix fs fp f1 = .error .fileNotFoundError) ∧
    (∀ fs2, removeBlenderFrameSuffix fs fp f1 = .ok fs2 →
      ∀ q ∈ fs, q ≠ tmpOutputPath fp → q ≠ fp.getFullPath → q ∈ fs2) := by
  refine ⟨rfl, fun habs => removeBlenderFrameSuffix_fileNotFound fs fp f1 habs, ?_⟩
  · intro fs2 hok q hq hq1 hq2
    rw [removeBlenderFrameSuffix_eq] at hok
    unfold osRename at hok
    by_cases hx : fsExists (List.filter (fun p => p != fp.getFullPath) fs)
        (tmpOutputPath fp) = true
    · rw [if_pos hx] at hok
      injection hok with hok
      subst hok
      apply List.mem_cons_of_mem
      simp only [List.mem_filter, bne_iff_ne, ne_eq, decide_eq_true_eq]
      exact ⟨⟨hq, hq2⟩, hq1⟩
    · rw [if_neg hx] at hok
      cases hok

/-- C9 witness: with only the frame-3 render `d/a0003.png` on disk, the
function behaves identically for frames 3 and 0 and fails with the
file-system error rather than stripping the `0003` suffix. -/
theorem c9_witness :
    removeBlenderFrameSuffix ["d/a0003.png"] ⟨"d", "a", "png"⟩ 3 =
      removeBlenderFrameSuffix ["d/a0003.png"] ⟨"d", "a", "png"⟩ 0 ∧
    removeBlenderFrameSuffix ["d/a0003.png"] ⟨"d", "a", "png"⟩ 3 =
      .error .fileNotFoundError :=
  ⟨(c9_removeBlenderFrameSuffix_ignores_frame ["d/a0003.png"] ⟨"d", "a", "png"⟩ 3 0).1,
   (c9_removeBlenderFrameSuffix_ignores_frame ["d/a0003.png"] ⟨"d", "a", "png"⟩ 3 0).2.1
     (by decide)⟩

/-- C10: the destination of `extractAlphaToGreyscale` is chosen with fixed
precedence — a provided `dst_img` is the full destination (for any value
of `dst_suffix`); otherwise a provided `dst_suffix` keeps the source
directory and extension and underscore-joins the source name with the
suffix; otherwise the destination equals the source path. -/
theorem c10_extractAlphaDest_precedence (srcTex : FilePath) :
    (∀ (dstTex : FilePath) (s : Option String),
      extractAlphaDest srcTex (some dstTex) s = dstTex) ∧
    (∀ sfx, extractAlphaDest srcTex none (some sfx) =
      ⟨srcTex.directory, srcTex.fileName ++ "_" ++ sfx, srcTex.fileExt⟩) ∧
    extractAlphaDest srcTex none none = srcTex := by
  exact ⟨fun _ _ => rfl, fun _ => rfl, rfl⟩

/- ===================== Claims C5 and C6 ===================== -/

/-- Lemma: a search that fails on the first list continues on the
second. -/
theorem find?_append_of_none {α : Type} (p : α → Bool) (l1 l2 : List α)
    (h : l1.find? p = none) : (l1 ++ l2).find? p = l2.find? p := by
  induction l1 with
  | nil => simp
  | cons a l ih =>
    cases hpa : p a with
    | true => simp [List.find?_cons_of_pos _ hpa] at h
    | false =>
      have hpa' : ¬ p a = true := by simp [hpa]
      rw [List.find?_cons_of_neg _ hpa'] at h
      simp [List.find?_cons_of_neg _ hpa', ih h]

/-- C5: with `create_if_camera_exists = False`, when the target collection
already contains an object of type `CAMERA`, `createCamera` returns
`None` and the scene is unchanged — no camera data block, no camera
object, no change to the scene's active camera; the check is the direct
`any`-query over the target collection's objects. -/
theorem c5_createCamera_existing_camera (scene : Scene) (name : String)
    (collection : Option String) (set_as_active : Bool)
    (h : (targetObjects scene collection).any
      (fun o => o.otype == ObjType.CAMERA) = true) :
    createCamera scene name collection false set_as_active = (scene, none) := by
  cases collection with
  | none =>
    have h' : (objectsOf scene CollRef.active).any
        (fun o => o.otype == ObjType.CAMERA) = true := h
    simp [createCamera, resolveCollection, h']
  | some c =>
    cases hf : scene.dataCollections.find? (fun x => x.1 == c) with
    | some entry =>
      unfold targetObjects at h
      simp only [resolveCollection, hf] at h
      simp [createCamera, resolveCollection, hf, h]
    | none =>
      exfalso
      unfold targetObjects at h
      simp only [resolveCollection, hf] at h
      rw [objectsOf] at h
      rw [find?_append_of_none _ _ _ hf] at h
      simp [List.find?] at h

/-- C5 witness: a collection already holding camera object `Cam0` makes
`createCamera` return `None` and leave the scene untouched. -/
theorem c5_witness :
    createCamera ⟨[⟨"Cam0", ObjType.CAMERA⟩], [], [], none, []⟩ "New" none
        false true =
      (⟨[⟨"Cam0", ObjType.CAMERA⟩], [], [], none, []⟩, none) :=
  c5_createCamera_existing_camera _ "New" none true (by decide)

/-- C6 counterexample: on a scene whose camera is unset while the active
collection already contains a camera object, the guard in
`renderComposition` calls `createCamera` with its default
`create_if_camera_exists=False`, which returns `None` without creating
`RenderCam` or setting the scene's camera — so the render operator is
invoked with no active camera, refuting the claimed invariant. -/
theorem c6_counterexample :
    c6CexScene.camera = none ∧
    renderCompositionCameraAtRender c6CexScene = none ∧
    (renderCompositionPre c6CexScene).dataCameras = [] ∧
    (renderCompositionPre c6CexScene).activeCollectionObjects =
      [⟨"StaleCam", ObjType.CAMERA⟩] := by
  refine ⟨rfl, ?_, ?_, ?_⟩ <;> rfl

/-- C6 amended: if the scene's camera is unset on entry and the active
collection contains no object of type `CAMERA`, `renderComposition`
creates a camera named `RenderCam` in the active collection and sets it
as the scene's active camera before invoking the render operator; if the
scene's camera is set on entry it is unchanged at render time.  (When
the camera is unset but the active collection already holds a camera
object, no camera is created and the render runs with no active
camera.) -/
theorem c6_renderComposition_camera (scene : Scene) :
    (scene.camera = none →
      scene.activeCollectionObjects.any
        (fun o => o.otype == ObjType.CAMERA) = false →
      renderCompositionCameraAtRender scene = some "RenderCam" ∧
      (renderCompositionPre scene).activeCollectionObjects =
        scene.activeCollectionObjects ++ [⟨"RenderCam", ObjType.CAMERA⟩] ∧
      (renderCompositionPre scene).dataCameras =
        scene.dataCameras ++ ["RenderCam"]) ∧
    (∀ c, scene.camera = some c →
      renderCompositionCameraAtRender scene = some c) := by
  constructor
  · intro hc hn
    have h' : (objectsOf scene CollRef.active).any
        (fun o => o.otype == ObjType.CAMERA) = false := hn
    refine ⟨?_, ?_, ?_⟩ <;>
      simp [renderCompositionCameraAtRender, renderCompositionPre, hc,
        createCamera, resolveCollection, h', linkObject]
  · intro c hc
    simp [renderCompositionCameraAtRender, renderCompositionPre, hc]

/-- C6 witness for the amended claim: on an empty scene with no camera the
guard creates and activates `RenderCam`; on a scene whose camera is
already `Cam` the camera at render time is `Cam`. -/
theorem c6_witness :
    renderCompositionCameraAtRender ⟨[], [], [], none, []⟩ = some "RenderCam" ∧
    renderCompositionCameraAtRender ⟨[], [], [], some "Cam", []⟩ = some "Cam" :=
  ⟨((c6_renderComposition_camera ⟨[], [], [], none, []⟩).1 rfl rfl).1,
   (c6_renderComposition_camera ⟨[], [], [], some "Cam", []⟩).2 "Cam" rfl⟩

/- ===================== Claims C3 and C8 ===================== -/

/-- C3: `getTextureFromSlot` propagates the underlying host exception
unchanged — a node tree with no `Principled BSDF` node yields the
`AttributeError` from subscripting `None`, a missing input socket yields
the `IndexError` from the subscript, and a `Normal`-slot upstream node
with no `Color` input yields the `KeyError` from the keyed subscript;
likewise `removeBlenderFrameSuffix` propagates the file-system error of
the rename when the `0000`-suffixed file does not exist.  No case is
recovered, retried or translated. -/
theorem c3_host_errors_propagate :
    (∀ (material : Material) (slot : BlenderMaterialTextureSlots),
      nodesGet material.nodes "Principled BSDF" = none →
      getTextureFromSlot material slot = .error .attributeError) ∧
    (∀ (material : Material) (slot : BlenderMaterialTextureSlots)
        (sg : ShaderNode),
      nodesGet material.nodes "Principled BSDF" = some sg →
      sg.inputs[slot.value]? = none →
      getTextureFromSlot material slot = .error .indexError) ∧
    (∀ (material : Material) (sg fromNode : ShaderNode)
        (rest : List ShaderNode) (sname : String),
      nodesGet material.nodes "Principled BSDF" = some sg →
      sg.inputs[BlenderMaterialTextureSlots.Normal.value]? =
        some (sname, fromNode :: rest) →
      fromNode.inputs.find? (fun s => s.1 == "Color") = none →
      getTextureFromSlot material BlenderMaterialTextureSlots.Normal =
        .error .keyError) ∧
    (∀ (fs : FS) (fp : FilePath) (frame : Nat),
      tmpOutputPath fp ∉ fs →
      removeBlenderFrameSuffix fs fp frame = .error .fileNotFoundError) := by
  refine ⟨?_, ?_, ?_, ?_⟩
  · intro material slot h
    simp [getTextureFromSlot, h]
  · intro material slot sg h1 h2
    simp [getTextureFromSlot, h1, inputByIndex, h2]
  · intro material sg fromNode rest sname h1 h2 h3
    simp [getTextureFromSlot, h1, inputByIndex, h2, inputByName, h3]
  · intro fs fp frame habs
    exact removeBlenderFrameSuffix_fileNotFound fs fp frame habs

/-- C3 witness: the four failure shapes at concrete inputs. -/
theorem c3_witness :
    getTextureFromSlot c3MatNoPrincipled .BaseColor = .error .attributeError ∧
    getTextureFromSlot c3MatNoInputs .BaseColor = .error .indexError ∧
    getTextureFromSlot c3MatNormal .Normal = .error .keyError ∧
    removeBlenderFrameSuffix [] ⟨"d", "a", "png"⟩ 0 = .error .fileNotFoundError :=
  ⟨c3_host_errors_propagate.1 c3MatNoPrincipled .BaseColor rfl,
   c3_host_errors_propagate.2.1 c3MatNoInputs .BaseColor c3SgNoInputs rfl rfl,
   c3_host_errors_propagate.2.2.1 c3MatNormal c3SgNormal c3NormalMapNode []
     "Normal" rfl rfl rfl,
   c3_host_errors_propagate.2.2.2 [] ⟨"d", "a", "png"⟩ 0 (by simp)⟩

/-- C8: object removal is unconditional — the objects and collections of
the result are those of the all-flags-off run, which removes no data
block besides the collection's objects; the materials flag alone gates
removal of exactly the zero-user materials, the images flag alone gates
removal of exactly the zero-user images, and with the mesh flag off the
mesh data blocks are untouched. -/
theorem c8_purge_flags_scope (st : BlendData) (collection_name : String)
    (a b c : Bool) (r : BlendData)
    (h : purgeMeshObjectsFromCollection st collection_name a b c = some r) :
    (∃ r0, purgeMeshObjectsFromCollection st collection_name false false false =
        some r0 ∧
      r.objects = r0.objects ∧ r.collections = r0.collections ∧
      r0.meshes = st.meshes ∧ r0.materials = st.materials ∧
      r0.images = st.images) ∧
    r.materials = (if b then st.materials.filter (fun mat => !(mat.2 == 0))
      else st.materials) ∧
    r.images = (if c then st.images.filter (fun i => !(i.2 == 0))
      else st.images) ∧
    (a = false → r.meshes = st.meshes) := by
  cases hf : st.collections.find? (fun x => x.1 == collection_name) with
  | none => simp [purgeMeshObjectsFromCollection, hf] at h
  | some entry =>
    simp only [purgeMeshObjectsFromCollection, hf, Option.some.injEq] at h
    subst h
    have h0 : purgeMeshObjectsFromCollection st collection_name false false false =
        some (purgeObjectsOnly st entry.2) := by
      simp only [purgeMeshObjectsFromCollection, hf]
      rfl
    refine ⟨⟨purgeObjectsOnly st entry.2, h0, rfl, rfl, rfl, rfl, rfl⟩,
      rfl, rfl, ?_⟩
    intro ha
    subst ha
    rfl

/-- C8 witness: on `c8St`, the all-flags-on purge removes objects plus
exactly the orphaned data blocks, the all-flags-off purge removes the
objects and nothing else. -/
theorem c8_witness :
    (∃ r0, purgeMeshObjectsFromCollection c8St "Coll" false false false =
        some r0 ∧
      c8Res.objects = r0.objects ∧ c8Res.collections = r0.collections ∧
      r0.meshes = c8St.meshes ∧ r0.materials = c8St.materials ∧
      r0.images = c8St.images) ∧
    c8Res0.meshes = c8St.meshes :=
  ⟨(c8_purge_flags_scope c8St "Coll" true true true c8Res (by decide)).1,
   (c8_purge_flags_scope c8St "Coll" false false false c8Res0 (by decide)).2.2.2
     rfl⟩

end BlenderUtils
